import Mathlib

/-!
Verification of the preprocessing and inference pipeline of
`src/data_handler.py` (with the fitted preprocessor produced by
`src/fit_preprocessor.py`).

The embedding models:
* JSON scalar values (`Value`), records (`Record`, a map from field name to
  value as produced by `json.loads` of one object);
* the fitted preprocessor (`Preprocessor`): per-numeric-feature
  (mean, stddev) from `StandardScaler`, per-categorical-feature the ordered
  fitted category list from `OneHotEncoder(drop='first')`, whose first
  category is the dropped reference level;
* `preprocess_data` (lines 42-68 of `data_handler.py`): schema coercion,
  `fillna(0)` for numerics, the `ColumnTransformer` transform (numeric
  block first, then the categorical indicator blocks), errors wrapped as
  `Error transforming data: ...`;
* `load_preprocessor` / artifact absence (lines 28-39), with its stderr
  diagnostics;
* `predict_fraud` (lines 71-98): one HTTP POST with a 10 second timeout,
  non-200 statuses and all exceptions wrapped as
  `Error calling MLflow API: ...`;
* `main` (lines 101-128): stdin JSON parse, the pipeline, one JSON line on
  stdout (success, exit 0) or stderr (failure, exit 1).

Machine floats are modelled as rationals; the HTTP world is an explicit
environment value (`ServiceBehavior`), and the output channels are lists of
structured lines (`OutLine`) so that JSON lines and plain diagnostics can be
told apart.
-/

/-- A scalar field value of the input JSON record: a number, a string, or
`null` (`None` in Python; also used for the pandas `NaN` a missing column
gets). -/
inductive Value where
  | num (q : ℚ)
  | str (s : String)
  | vnull
deriving DecidableEq, Repr

/-- A record (`data_dict`): a finite map from field names to values, modelled
as a lookup function.  `none` means the key is absent from the JSON object. -/
def Record : Type := String → Option Value

/-- Remove a field from a record (the record without that key). -/
def removeField (r : Record) (k : String) : Record :=
  fun g => if g = k then none else r g

/-- Set a field of a record to a given value. -/
def setField (r : Record) (k : String) (v : Value) : Record :=
  fun g => if g = k then some v else r g

/-- The record with no fields. -/
def emptyRec : Record := fun _ => none

/-- `CATEGORICAL_FEATURES` of `data_handler.py` (same list in
`fit_preprocessor.py`). -/
def CATEGORICAL_FEATURES : List String :=
  ["payment_type", "employment_status", "housing_status", "source", "device_os"]

/-- `NUMERICAL_FEATURES` of `data_handler.py` (same list in
`fit_preprocessor.py`). -/
def NUMERICAL_FEATURES : List String :=
  ["income", "name_email_similarity", "prev_address_months_count",
   "current_address_months_count", "customer_age", "days_since_request",
   "intended_balcon_amount", "zip_count_4w", "velocity_6h", "velocity_24h",
   "velocity_4w", "bank_branch_count_8w", "date_of_birth_distinct_emails_4w",
   "credit_risk_score", "email_is_free", "phone_home_valid",
   "phone_mobile_valid", "bank_months_count", "has_other_cards",
   "proposed_credit_limit", "foreign_request", "session_length_in_minutes",
   "device_distinct_emails_8w", "device_fraud_count", "month"]

/-- The fitted preprocessor artifact (`preprocessor.pkl`): the
`ColumnTransformer` of `fit_preprocessor.py` with a fitted `StandardScaler`
(mean and stddev per numeric feature) and a fitted
`OneHotEncoder(sparse_output=False, drop='first')` (ordered category list per
categorical feature; the first category is the dropped reference level). -/
structure Preprocessor where
  /-- Fitted `(mean, stddev)` of `StandardScaler` for a numeric feature. -/
  numStats : String → ℚ × ℚ
  /-- Fitted ordered category list of `OneHotEncoder` for a categorical
  feature; the first entry is the dropped reference category. -/
  cats : String → List Value

/-- Schema coercion of `preprocess_data` lines 50-56: every schema feature is
looked up in the record; an absent key yields `None` (the `df[feat] = None`
branch), which we write `Value.vnull`. -/
def fieldOrNull (r : Record) (k : String) : Value :=
  match r k with
  | none => Value.vnull
  | some v => v

/-- The numeric path for one feature: `fillna(0)` (line 61) followed by
`StandardScaler.transform`, i.e. `(value - mean) / stddev`.  A string value
cannot be scaled and raises inside the transform. -/
def stdNum (st : ℚ × ℚ) (v : Value) : Except String ℚ :=
  match v with
  | Value.vnull => Except.ok ((0 - st.1) / st.2)
  | Value.num q => Except.ok ((q - st.1) / st.2)
  | Value.str s => Except.error ("could not convert string to float: " ++ s)

/-- `OneHotEncoder(drop='first')` on one value: one indicator per fitted
category except the first (dropped) one; the reference category encodes as
all zeros.  A value outside the fitted categories raises
(`handle_unknown='error'`, the encoder's default). -/
def oneHotDropFirst (cats : List Value) (v : Value) : Except String (List ℚ) :=
  if v ∈ cats then
    Except.ok ((cats.drop 1).map (fun c => if c = v then 1 else 0))
  else
    Except.error "Found unknown categories"

/-- `mapM` over `Except` written with explicit recursion: transform each
element, failing on the first error. -/
def mapE {α β : Type} (f : α → Except String β) : List α → Except String (List β)
  | [] => Except.ok []
  | x :: xs =>
    match f x, mapE f xs with
    | Except.ok y, Except.ok ys => Except.ok (y :: ys)
    | Except.error e, _ => Except.error e
    | Except.ok _, Except.error e => Except.error e

/-- The standardized numeric block: the `('num', StandardScaler(), ...)`
part of the `ColumnTransformer`, over `NUMERICAL_FEATURES` in order. -/
def numericBlock (p : Preprocessor) (r : Record) : Except String (List ℚ) :=
  mapE (fun f => stdNum (p.numStats f) (fieldOrNull r f)) NUMERICAL_FEATURES

/-- The indicator block of one categorical feature. -/
def catBlock (p : Preprocessor) (r : Record) (f : String) : Except String (List ℚ) :=
  oneHotDropFirst (p.cats f) (fieldOrNull r f)

/-- The categorical indicator blocks: the `('cat', OneHotEncoder(...), ...)`
part of the `ColumnTransformer`, over `CATEGORICAL_FEATURES` in order. -/
def categoricalBlocks (p : Preprocessor) (r : Record) : Except String (List (List ℚ)) :=
  mapE (catBlock p r) CATEGORICAL_FEATURES

/-- `preprocessor.transform(df)[0]`: the numeric block followed by the
concatenated categorical blocks (`ColumnTransformer` applies its transformers
in the listed order). -/
def transformColumns (p : Preprocessor) (r : Record) : Except String (List ℚ) :=
  match numericBlock p r, categoricalBlocks p r with
  | Except.ok nb, Except.ok cbs => Except.ok (nb ++ cbs.flatten)
  | Except.error e, _ => Except.error e
  | Except.ok _, Except.error e => Except.error e

/-- `preprocess_data` lines 47-68, for an already loaded preprocessor: build
the one-row frame, coerce to schema order, impute, transform; any transform
exception is re-raised as `Error transforming data: ...` (line 68). -/
def preprocess_data (p : Preprocessor) (r : Record) : Except String (List ℚ) :=
  match transformColumns p r with
  | Except.ok v => Except.ok v
  | Except.error e => Except.error ("Error transforming data: " ++ e)

/-- `MLFLOW_API_URL` of `data_handler.py`. -/
def MLFLOW_API_URL : String := "http://localhost:5000/predict"

/-- `PREPROCESSOR_PATH` of `data_handler.py` (the artifact file name; the
leading directory is the runtime location of the script). -/
def PREPROCESSOR_PATH : String := "preprocessor.pkl"

/-- One line written to an output channel: a success JSON object
`fraud_bool / n_features`, a failure JSON object `error / fraud_bool`,
or a plain (non-JSON) diagnostic line. -/
inductive OutLine where
  | jsonSuccess (fraud_bool : Int) (n_features : Nat)
  | jsonError (error : String) (fraud_bool : Int)
  | diag (msg : String)
deriving DecidableEq, Repr

/-- `load_preprocessor` lines 28-39: if the artifact file is absent, print two
diagnostic lines on stderr and return `None`; otherwise return the loaded
preprocessor.  The disk state is the optional artifact content. -/
def load_preprocessor (disk : Option Preprocessor) :
    Option Preprocessor × List OutLine :=
  match disk with
  | none =>
      (none,
       [OutLine.diag ("Error: Preprocessor not found at " ++ PREPROCESSOR_PATH),
        OutLine.diag "Run: python3 fit_preprocessor.py first"])
  | some p => (some p, [])

/-- `preprocess_data` lines 42-45 around the pure transform: the preprocessor
is loaded from disk on every call; a missing artifact raises
`Preprocessor not loaded. Run fit_preprocessor.py first.` after the stderr
diagnostics of `load_preprocessor`. -/
def preprocess_data_run (disk : Option Preprocessor) (r : Record) :
    Except String (List ℚ) × List OutLine :=
  match load_preprocessor disk with
  | (none, logs) =>
      (Except.error "Preprocessor not loaded. Run fit_preprocessor.py first.", logs)
  | (some p, logs) => (preprocess_data p r, logs)

/-- The single HTTP request `predict_fraud` builds: the configured URL, the
column names `feature_0 ... feature_{n-1}`, the vector as the single row of
`dataframe_split.data`, and the fixed timeout (seconds). -/
structure HttpRequest where
  url : String
  columns : List String
  data : List (List ℚ)
  timeout : Nat
deriving DecidableEq, Repr

/-- The request of `predict_fraud` lines 72-88 for a feature vector. -/
def predict_request (features : List ℚ) : HttpRequest :=
  { url := MLFLOW_API_URL
    columns := (List.range features.length).map (fun i => "feature_" ++ toString i)
    data := [features]
    timeout := 10 }

/-- An HTTP response of the scoring service: status code, raw body text, and
the outcome of parsing the body as `result["predictions"]` cast to integers
(`Except.error` is any parse failure: invalid JSON, missing key, non-numeric
entry). -/
structure HttpResponse where
  status : Nat
  text : String
  body : Except String (List Int)

/-- The scoring service behavior for the single request: either the call
raises (network failure or timeout, with the exception text) or a response
arrives. -/
inductive ServiceBehavior where
  | fail (cause : String)
  | respond (resp : HttpResponse)

/-- `predict_fraud` lines 71-98: issue the one request, check the status,
parse `predictions[0]` as the label; every exception in the `try` block is
re-raised as `Error calling MLflow API: ...` (line 98), including the non-200
`MLflow API error: <status> <text>` raised at line 91 and the `IndexError` of
an empty predictions list. -/
def predict_fraud_result (svc : ServiceBehavior) : Except String Int :=
  match svc with
  | ServiceBehavior.fail cause =>
      Except.error ("Error calling MLflow API: " ++ cause)
  | ServiceBehavior.respond resp =>
      if resp.status ≠ 200 then
        Except.error ("Error calling MLflow API: MLflow API error: "
          ++ toString resp.status ++ " " ++ resp.text)
      else
        match resp.body with
        | Except.error e => Except.error ("Error calling MLflow API: " ++ e)
        | Except.ok [] =>
            Except.error "Error calling MLflow API: list index out of range"
        | Except.ok (x :: _) => Except.ok x

/-- `predict_fraud`: the single `requests.post` call is always issued once
(no retry); its outcome is paired with the one-element request trace. -/
def predict_fraud (svc : ServiceBehavior) (features : List ℚ) :
    Except String Int × List HttpRequest :=
  (predict_fraud_result svc, [predict_request features])

/-- The environment of one invocation of `main`: the result of
`json.loads(sys.stdin.read())` (`Except.error` is a malformed input with the
parse exception text), the preprocessor artifact on disk, and the scoring
service behavior. -/
structure Env where
  input : Except String Record
  disk : Option Preprocessor
  service : ServiceBehavior

/-- What one invocation produces: the stdout lines, the stderr lines, the
process exit code, and the HTTP requests issued to the scoring service. -/
structure ProgResult where
  stdout : List OutLine
  stderr : List OutLine
  exitCode : Nat
  requests : List HttpRequest

/-- `main` lines 101-128: parse stdin, preprocess, predict, and print exactly
one JSON result line — on success `{fraud_bool, n_features}` to stdout with
exit 0, on any exception `{error, fraud_bool: 0}` to stderr with exit 1. -/
def mainRun (env : Env) : ProgResult :=
  match env.input with
  | Except.error e =>
      { stdout := [], stderr := [OutLine.jsonError e 0], exitCode := 1, requests := [] }
  | Except.ok r =>
      match preprocess_data_run env.disk r with
      | (Except.error e, logs) =>
          { stdout := [], stderr := logs ++ [OutLine.jsonError e 0],
            exitCode := 1, requests := [] }
      | (Except.ok features, logs) =>
          match predict_fraud env.service features with
          | (Except.error e, reqs) =>
              { stdout := [], stderr := logs ++ [OutLine.jsonError e 0],
                exitCode := 1, requests := reqs }
          | (Except.ok pred, reqs) =>
              { stdout := [OutLine.jsonSuccess pred features.length],
                stderr := logs, exitCode := 0, requests := reqs }

/-! ### Helper lemmas about `mapE` and the transform blocks -/

theorem mapE_ok_length {α β : Type} {f : α → Except String β} :
    ∀ {xs : List α} {ys : List β}, mapE f xs = Except.ok ys → ys.length = xs.length := by
  intro xs
  induction xs with
  | nil => intro ys h; simp [mapE] at h; simp [h]
  | cons x xs ih =>
    intro ys h
    simp only [mapE] at h
    cases hf : f x with
    | error e => rw [hf] at h; simp at h
    | ok y =>
      rw [hf] at h
      cases hm : mapE f xs with
      | error e => rw [hm] at h; simp at h
      | ok ys2 =>
        rw [hm] at h
        simp only [Except.ok.injEq] at h
        subst h
        simp [ih hm]

theorem mapE_ok_get {α β : Type} {f : α → Except String β} :
    ∀ {xs : List α} {ys : List β}, mapE f xs = Except.ok ys →
      ∀ (i : ℕ) (hx : i < xs.length) (hy : i < ys.length),
        f (xs.get ⟨i, hx⟩) = Except.ok (ys.get ⟨i, hy⟩) := by
  intro xs
  induction xs with
  | nil => intro ys h i hx hy; simp at hx
  | cons x xs ih =>
    intro ys h i hx hy
    simp only [mapE] at h
    cases hf : f x with
    | error e => rw [hf] at h; simp at h
    | ok y =>
      rw [hf] at h
      cases hm : mapE f xs with
      | error e => rw [hm] at h; simp at h
      | ok ys2 =>
        rw [hm] at h
        simp only [Except.ok.injEq] at h
        subst h
        cases i with
        | zero => simpa using hf
        | succ j =>
          simp only [List.get_cons_succ]
          exact ih hm j (Nat.lt_of_succ_lt_succ hx) (Nat.lt_of_succ_lt_succ hy)

theorem mapE_ok_mem {α β : Type} {f : α → Except String β} :
    ∀ {xs : List α} {ys : List β}, mapE f xs = Except.ok ys →
      ∀ x ∈ xs, ∃ y, f x = Except.ok y := by
  intro xs
  induction xs with
  | nil => intro ys _ x hx; simp at hx
  | cons a xs ih =>
    intro ys h x hx
    simp only [mapE] at h
    cases hf : f a with
    | error e => rw [hf] at h; simp at h
    | ok y =>
      rw [hf] at h
      cases hm : mapE f xs with
      | error e => rw [hm] at h; simp at h
      | ok ys2 =>
        rcases List.mem_cons.mp hx with rfl | hx2
        · exact ⟨y, hf⟩
        · exact ih hm x hx2

theorem mapE_ok_map {α β γ : Type} {f : α → Except String β} {g : β → γ} {h : α → γ} :
    ∀ {xs : List α} {ys : List β}, mapE f xs = Except.ok ys →
      (∀ x ∈ xs, ∀ y, f x = Except.ok y → g y = h x) →
      ys.map g = xs.map h := by
  intro xs
  induction xs with
  | nil => intro ys hok _; simp [mapE] at hok; simp [hok]
  | cons a xs ih =>
    intro ys hok hgh
    simp only [mapE] at hok
    cases hf : f a with
    | error e => rw [hf] at hok; simp at hok
    | ok y =>
      rw [hf] at hok
      cases hm : mapE f xs with
      | error e => rw [hm] at hok; simp at hok
      | ok ys2 =>
        rw [hm] at hok
        simp only [Except.ok.injEq] at hok
        subst hok
        simp only [List.map_cons]
        rw [hgh a (List.mem_cons_self a xs) y hf,
          ih hm (fun x hx => hgh x (List.mem_cons_of_mem a hx))]

theorem mapE_congr {α β : Type} {f g : α → Except String β} :
    ∀ {xs : List α}, (∀ x ∈ xs, f x = g x) → mapE f xs = mapE g xs := by
  intro xs
  induction xs with
  | nil => intro _; rfl
  | cons a xs ih =>
    intro hfg
    simp only [mapE, hfg a (List.mem_cons_self a xs),
      ih (fun x hx => hfg x (List.mem_cons_of_mem a hx))]

theorem oneHotDropFirst_ok_length {cats : List Value} {v : Value} {l : List ℚ}
    (h : oneHotDropFirst cats v = Except.ok l) : l.length = cats.length - 1 := by
  unfold oneHotDropFirst at h
  by_cases hm : v ∈ cats
  · rw [if_pos hm] at h
    simp only [Except.ok.injEq] at h
    subst h
    simp
  · rw [if_neg hm] at h
    simp at h

theorem oneHotDropFirst_ok_mem {cats : List Value} {v : Value} {l : List ℚ}
    (h : oneHotDropFirst cats v = Except.ok l) : v ∈ cats := by
  unfold oneHotDropFirst at h
  by_cases hm : v ∈ cats
  · exact hm
  · rw [if_neg hm] at h; simp at h

theorem preprocess_ok_parts {p : Preprocessor} {r : Record} {v : List ℚ}
    (h : preprocess_data p r = Except.ok v) :
    ∃ nb cbs, numericBlock p r = Except.ok nb ∧
      categoricalBlocks p r = Except.ok cbs ∧ v = nb ++ cbs.flatten := by
  unfold preprocess_data transformColumns at h
  cases hn : numericBlock p r with
  | error e => rw [hn] at h; simp at h
  | ok nb =>
    rw [hn] at h
    cases hc : categoricalBlocks p r with
    | error e => rw [hc] at h; simp at h
    | ok cbs =>
      rw [hc] at h
      simp only [Except.ok.injEq] at h
      exact ⟨nb, cbs, rfl, rfl, h.symm⟩

theorem preprocess_ok_length {p : Preprocessor} {r : Record} {v : List ℚ}
    (h : preprocess_data p r = Except.ok v) :
    v.length = NUMERICAL_FEATURES.length
      + ((CATEGORICAL_FEATURES.map (fun f => (p.cats f).length - 1)).sum) := by
  obtain ⟨nb, cbs, hn, hc, rfl⟩ := preprocess_ok_parts h
  have hnb : nb.length = NUMERICAL_FEATURES.length := mapE_ok_length hn
  have hcb : cbs.map List.length
      = CATEGORICAL_FEATURES.map (fun f => (p.cats f).length - 1) :=
    mapE_ok_map hc (fun f _ l hl => oneHotDropFirst_ok_length hl)
  simp [List.length_append, hnb, List.length_flatten, hcb]

theorem preprocess_fieldOrNull_congr (p : Preprocessor) (r1 r2 : Record)
    (h : ∀ f ∈ NUMERICAL_FEATURES ++ CATEGORICAL_FEATURES,
      fieldOrNull r1 f = fieldOrNull r2 f) :
    preprocess_data p r1 = preprocess_data p r2 := by
  have hn : numericBlock p r1 = numericBlock p r2 :=
    mapE_congr (fun f hf => by rw [h f (List.mem_append_left _ hf)])
  have hc : categoricalBlocks p r1 = categoricalBlocks p r2 :=
    mapE_congr (fun f hf => by
      unfold catBlock; rw [h f (List.mem_append_right _ hf)])
  unfold preprocess_data transformColumns
  rw [hn, hc]

/-! ### Concrete fitted preprocessors and records used as witnesses -/

/-- A concrete fitted preprocessor: every numeric feature has mean 0 and
stddev 1; every categorical feature was fitted on the categories `null`
(dropped reference) and `"a"`. -/
def pW : Preprocessor :=
  { numStats := fun _ => (0, 1)
    cats := fun _ => [Value.vnull, Value.str "a"] }

/-- The transform of the empty record under `pW`: 25 standardized zeros and
five one-entry indicator blocks encoding the reference level. -/
def vW : List ℚ := List.replicate 30 0

theorem pW_emptyRec_eval : preprocess_data pW emptyRec = Except.ok vW := by
  norm_num +decide [preprocess_data, transformColumns, numericBlock, categoricalBlocks,
    catBlock, mapE, NUMERICAL_FEATURES, CATEGORICAL_FEATURES, stdNum,
    oneHotDropFirst, fieldOrNull, emptyRec, pW, vW, List.replicate]

/-- The fitted preprocessor of spec scenario A: feature `income` has mean
50000 and stddev 10000; all other numeric features have mean 0 and stddev 1;
categories as in `pW`. -/
def pA : Preprocessor :=
  { numStats := fun f => if f = "income" then (50000, 10000) else (0, 1)
    cats := fun _ => [Value.vnull, Value.str "a"] }

/-- The record of spec scenario A. -/
def rA : Record := fun k => if k = "income" then some (Value.num 60000) else none

/-- The transform of `rA` under `pA`. -/
def vA : List ℚ := 1 :: List.replicate 29 0

theorem pA_rA_eval : preprocess_data pA rA = Except.ok vA := by
  norm_num +decide [preprocess_data, transformColumns, numericBlock, categoricalBlocks,
    catBlock, mapE, NUMERICAL_FEATURES, CATEGORICAL_FEATURES, stdNum,
    oneHotDropFirst, fieldOrNull, pA, rA, vA, List.replicate]

/-! ### The claims -/

/-- C1: every feature vector returned by the transform has length
`|numeric| + Σ(|categories_i| - 1)`, i.e. the 25 numeric columns followed by
one `(|categories|-1)`-wide drop-first indicator block per categorical
feature, and that length is the same for every record transformed against the
same fitted preprocessor. -/
theorem transform_output_length (p : Preprocessor) (r : Record) (v : List ℚ)
    (h : preprocess_data p r = Except.ok v) :
    v.length = NUMERICAL_FEATURES.length
        + ((CATEGORICAL_FEATURES.map (fun f => (p.cats f).length - 1)).sum)
      ∧ NUMERICAL_FEATURES.length = 25
      ∧ ∀ (r2 : Record) (v2 : List ℚ), preprocess_data p r2 = Except.ok v2 →
          v2.length = v.length := by
  refine ⟨preprocess_ok_length h, by decide, ?_⟩
  intro r2 v2 h2
  rw [preprocess_ok_length h2, preprocess_ok_length h]

/-- C1 witness: the length law instantiated at `pW` and the empty record. -/
theorem transform_output_length_witness :
    preprocess_data pW emptyRec = Except.ok vW ∧
      vW.length = NUMERICAL_FEATURES.length
        + ((CATEGORICAL_FEATURES.map (fun f => (pW.cats f).length - 1)).sum) :=
  ⟨pW_emptyRec_eval, (transform_output_length pW emptyRec vW pW_emptyRec_eval).1⟩

/-- C2: in any successfully transformed vector, the entry at numeric position
`i` is the standardized value of the `i`-th numeric feature: an absent or
null field is imputed to `0` and standardized as `(0 - mean) / stddev`, and a
numeric value `q` is standardized as `(q - mean) / stddev`, using the fitted
statistics of that feature. -/
theorem transform_numeric_standardize (p : Preprocessor) (r : Record) (v : List ℚ)
    (i : ℕ) (hi : i < NUMERICAL_FEATURES.length)
    (h : preprocess_data p r = Except.ok v) :
    (fieldOrNull r (NUMERICAL_FEATURES.get ⟨i, hi⟩) = Value.vnull →
        v.get? i = some ((0 - (p.numStats (NUMERICAL_FEATURES.get ⟨i, hi⟩)).1)
          / (p.numStats (NUMERICAL_FEATURES.get ⟨i, hi⟩)).2))
      ∧ (∀ q : ℚ, fieldOrNull r (NUMERICAL_FEATURES.get ⟨i, hi⟩) = Value.num q →
        v.get? i = some ((q - (p.numStats (NUMERICAL_FEATURES.get ⟨i, hi⟩)).1)
          / (p.numStats (NUMERICAL_FEATURES.get ⟨i, hi⟩)).2)) := by
  obtain ⟨nb, cbs, hn, hc, rfl⟩ := preprocess_ok_parts h
  have hlen : nb.length = NUMERICAL_FEATURES.length := mapE_ok_length hn
  have hi2 : i < nb.length := by rw [hlen]; exact hi
  have hget := mapE_ok_get hn i hi hi2
  have happ : (nb ++ cbs.flatten).get? i = nb.get? i := List.get?_append hi2
  have hsome : nb.get? i = some (nb.get ⟨i, hi2⟩) := List.get?_eq_get hi2
  constructor
  · intro he
    rw [he] at hget
    simp only [stdNum, Except.ok.injEq] at hget
    rw [happ, hsome, ← hget]
  · intro q he
    rw [he] at hget
    simp only [stdNum, Except.ok.injEq] at hget
    rw [happ, hsome, ← hget]

/-- C2 witness: scenario A — `income` fitted with mean 50000 and stddev
10000, record `income = 60000`, standardized value 1 at the income column
(position 0). -/
theorem transform_numeric_standardize_witness :
    preprocess_data pA rA = Except.ok vA
      ∧ fieldOrNull rA "income" = Value.num 60000
      ∧ vA.get? 0 = some 1 := by
  refine ⟨pA_rA_eval, by norm_num [fieldOrNull, rA], ?_⟩
  have h := (transform_numeric_standardize pA rA vA 0 (by norm_num [NUMERICAL_FEATURES])
    pA_rA_eval).2 60000 (by norm_num [fieldOrNull, rA, NUMERICAL_FEATURES])
  rw [h]
  norm_num [pA, NUMERICAL_FEATURES]

/-- A record identical to the empty one on every schema field but holding an
unrelated extra key (extra keys are ignored by the transform). -/
def rExtra : Record :=
  fun k => if k = "unrelated_key" then some (Value.num 7) else none

/-- C3: the transform is pure and deterministic — its result is a function of
the fitted preprocessor and the record's values at the schema fields alone,
so two calls with the same record and the same preprocessor produce identical
vectors and no ambient state influences the output. -/
theorem transform_deterministic (p : Preprocessor) (r1 r2 : Record)
    (h : ∀ f ∈ NUMERICAL_FEATURES ++ CATEGORICAL_FEATURES,
      fieldOrNull r1 f = fieldOrNull r2 f) :
    preprocess_data p r1 = preprocess_data p r2 :=
  preprocess_fieldOrNull_congr p r1 r2 h

/-- C3 witness: the empty record and the record with only an unrelated extra
key agree on every schema field and transform identically under `pW`. -/
theorem transform_deterministic_witness :
    (∀ f ∈ NUMERICAL_FEATURES ++ CATEGORICAL_FEATURES,
        fieldOrNull emptyRec f = fieldOrNull rExtra f)
      ∧ preprocess_data pW emptyRec = preprocess_data pW rExtra := by
  have h : ∀ f ∈ NUMERICAL_FEATURES ++ CATEGORICAL_FEATURES,
      fieldOrNull emptyRec f = fieldOrNull rExtra f := by decide
  exact ⟨h, transform_deterministic pW emptyRec rExtra h⟩

/-- A fitted preprocessor whose `payment_type` categories are `"AA"` (the
dropped reference) and `"AB"`; all other features as in `pW`. -/
def p4 : Preprocessor :=
  { numStats := fun _ => (0, 1)
    cats := fun f => if f = "payment_type" then [Value.str "AA", Value.str "AB"]
      else [Value.vnull, Value.str "a"] }

/-- A record whose `payment_type` value `"ZZ"` was never seen when fitting
`p4`. -/
def r4 : Record :=
  fun k => if k = "payment_type" then some (Value.str "ZZ") else none

/-- C4 counterexample: on a record with an unseen categorical value the
transform does not produce any fallback encoding — it fails, because the
fitted encoder rejects unknown categories (`handle_unknown='error'`), and the
exception is re-raised as a transform error. -/
theorem unseen_category_cex :
    preprocess_data p4 r4
      = Except.error "Error transforming data: Found unknown categories" := by
  norm_num +decide [preprocess_data, transformColumns, numericBlock,
    categoricalBlocks, catBlock, mapE, NUMERICAL_FEATURES, CATEGORICAL_FEATURES,
    stdNum, oneHotDropFirst, fieldOrNull, p4, r4]

/-- C4 amended: a record whose value for some categorical feature lies
outside that feature's fitted categories makes the transform fail with an
error (which the orchestrator converts into the failure output); no fallback
encoding is produced. -/
theorem unseen_category_fails (p : Preprocessor) (r : Record) (f : String)
    (hf : f ∈ CATEGORICAL_FEATURES) (hv : fieldOrNull r f ∉ p.cats f) :
    ∃ e, preprocess_data p r = Except.error e := by
  cases hpp : preprocess_data p r with
  | error e => exact ⟨e, rfl⟩
  | ok v =>
    exfalso
    obtain ⟨nb, cbs, hn, hc, _⟩ := preprocess_ok_parts hpp
    obtain ⟨l, hl⟩ := mapE_ok_mem hc f hf
    exact hv (oneHotDropFirst_ok_mem hl)

/-- C4 amended witness: instantiated at `p4` and `r4`. -/
theorem unseen_category_fails_witness :
    ("payment_type" ∈ CATEGORICAL_FEATURES)
      ∧ fieldOrNull r4 "payment_type" ∉ p4.cats "payment_type"
      ∧ ∃ e, preprocess_data p4 r4 = Except.error e :=
  ⟨by decide, by decide,
    unseen_category_fails p4 r4 "payment_type" (by decide) (by decide)⟩

/-- C9: a record missing a numeric field produces the same standardized
numeric block as the same record with that field explicitly set to the
imputed default `0`. -/
theorem missing_numeric_same_as_default (p : Preprocessor) (r : Record)
    (f : String) (hf : f ∈ NUMERICAL_FEATURES) :
    numericBlock p (removeField r f)
      = numericBlock p (setField r f (Value.num 0)) := by
  apply mapE_congr
  intro g _
  by_cases hgf : g = f
  · subst hgf
    have h1 : fieldOrNull (removeField r g) g = Value.vnull := by
      simp [fieldOrNull, removeField]
    have h2 : fieldOrNull (setField r g (Value.num 0)) g = Value.num 0 := by
      simp [fieldOrNull, setField]
    rw [h1, h2]
    simp [stdNum]
  · have h1 : fieldOrNull (removeField r f) g = fieldOrNull r g := by
      simp [fieldOrNull, removeField, hgf]
    have h2 : fieldOrNull (setField r f (Value.num 0)) g = fieldOrNull r g := by
      simp [fieldOrNull, setField, hgf]
    rw [h1, h2]

/-- C9 witness: dropping `income` from the scenario-A record gives the same
numeric block as setting `income` to `0` explicitly. -/
theorem missing_numeric_same_as_default_witness :
    ("income" ∈ NUMERICAL_FEATURES)
      ∧ numericBlock pW (removeField rA "income")
          = numericBlock pW (setField rA "income" (Value.num 0)) :=
  ⟨by decide, missing_numeric_same_as_default pW rA "income" (by decide)⟩

/-- C10: for every schema field, omitting the field and mapping it explicitly
to `null` are indistinguishable at the transform interface: the two
transforms return identical results. -/
theorem omitted_eq_explicit_null (p : Preprocessor) (r : Record) (f : String)
    (hf : f ∈ NUMERICAL_FEATURES ++ CATEGORICAL_FEATURES) :
    preprocess_data p (removeField r f)
      = preprocess_data p (setField r f Value.vnull) := by
  apply preprocess_fieldOrNull_congr
  intro g _
  by_cases hgf : g = f
  · subst hgf
    simp [fieldOrNull, removeField, setField]
  · simp [fieldOrNull, removeField, setField, hgf]

/-- C10 witness: instantiated at `pW`, the scenario-A record and the
categorical field `payment_type`. -/
theorem omitted_eq_explicit_null_witness :
    ("payment_type" ∈ NUMERICAL_FEATURES ++ CATEGORICAL_FEATURES)
      ∧ preprocess_data pW (removeField rA "payment_type")
          = preprocess_data pW (setField rA "payment_type" Value.vnull) :=
  ⟨by decide, omitted_eq_explicit_null pW rA "payment_type" (by decide)⟩

/-- An invocation with malformed stdin JSON while the preprocessor artifact
is also absent. -/
def envC5 : Env :=
  { input := Except.error "Expecting value: line 1 column 1 (char 0)"
    disk := none
    service := ServiceBehavior.fail "unused" }

/-- An invocation with a well-formed (empty) record while the preprocessor
artifact is absent. -/
def envAbsent : Env :=
  { input := Except.ok emptyRec
    disk := none
    service := ServiceBehavior.fail "unused" }

/-- C5 counterexample: with the artifact absent and malformed input, the
invocation reports the JSON parse error, not any preprocessor error — the
record is read and parsed before the artifact is ever checked, so absence is
not detected at startup prior to record processing. -/
theorem startup_check_cex :
    (mainRun envC5).stderr
        = [OutLine.jsonError "Expecting value: line 1 column 1 (char 0)" 0]
      ∧ (mainRun envC5).stdout = []
      ∧ (mainRun envC5).exitCode = 1 := by
  decide

/-- C5 amended: absence of the preprocessor artifact is detected on demand
when preprocessing runs, after the input record has been read and parsed; for
any parsed record and absent artifact the program prints stderr diagnostics
naming the artifact location and the fit-step remediation, fails with the
error output naming the fit step, and issues no scoring-service request (the
preceding input parse, however, does run, and a parse failure is reported
instead). -/
theorem artifact_absent_load_on_demand (env : Env) (r : Record)
    (h1 : env.input = Except.ok r) (h2 : env.disk = none) :
    mainRun env =
      { stdout := []
        stderr := [OutLine.diag ("Error: Preprocessor not found at "
            ++ PREPROCESSOR_PATH),
          OutLine.diag "Run: python3 fit_preprocessor.py first",
          OutLine.jsonError
            "Preprocessor not loaded. Run fit_preprocessor.py first." 0]
        exitCode := 1
        requests := [] } := by
  unfold mainRun preprocess_data_run load_preprocessor
  rw [h1, h2]
  rfl

/-- C5 amended witness: instantiated at `envAbsent`. -/
theorem artifact_absent_load_on_demand_witness :
    envAbsent.input = Except.ok emptyRec ∧ envAbsent.disk = none
      ∧ mainRun envAbsent =
        { stdout := []
          stderr := [OutLine.diag ("Error: Preprocessor not found at "
              ++ PREPROCESSOR_PATH),
            OutLine.diag "Run: python3 fit_preprocessor.py first",
            OutLine.jsonError
              "Preprocessor not loaded. Run fit_preprocessor.py first." 0]
          exitCode := 1
          requests := [] } :=
  ⟨rfl, rfl, artifact_absent_load_on_demand envAbsent emptyRec rfl rfl⟩

/-- C6: `predict_fraud` issues exactly the one request (10-second timeout, to
the configured endpoint, no retry); a network failure or timeout fails with
the wrapped cause; a non-200 status fails with an error carrying the status
and the response body; a body-parse failure fails; and a label is returned
only for a 200 response whose predictions array is nonempty, namely its first
element. -/
theorem predict_fraud_contract (svc : ServiceBehavior) (features : List ℚ) :
    (predict_fraud svc features).2 = [predict_request features]
      ∧ (predict_request features).timeout = 10
      ∧ (predict_request features).url = MLFLOW_API_URL
      ∧ (∀ cause, svc = ServiceBehavior.fail cause →
          (predict_fraud svc features).1
            = Except.error ("Error calling MLflow API: " ++ cause))
      ∧ (∀ resp, svc = ServiceBehavior.respond resp → resp.status ≠ 200 →
          (predict_fraud svc features).1
            = Except.error ("Error calling MLflow API: MLflow API error: "
                ++ toString resp.status ++ " " ++ resp.text))
      ∧ (∀ resp e, svc = ServiceBehavior.respond resp →
          resp.body = Except.error e →
          ∃ msg, (predict_fraud svc features).1 = Except.error msg)
      ∧ (∀ x, (predict_fraud svc features).1 = Except.ok x →
          ∃ resp rest, svc = ServiceBehavior.respond resp ∧ resp.status = 200
            ∧ resp.body = Except.ok (x :: rest)) := by
  cases svc with
  | fail cause =>
    refine ⟨rfl, rfl, rfl, ?_, ?_, ?_, ?_⟩
    · intro cause2 h; cases h; rfl
    · intro resp h; cases h
    · intro resp e h; cases h
    · intro x h; simp [predict_fraud, predict_fraud_result] at h
  | respond resp =>
    by_cases hs : resp.status = 200
    · refine ⟨rfl, rfl, rfl, ?_, ?_, ?_, ?_⟩
      · intro cause h; cases h
      · intro resp2 h hne; cases h; exact absurd hs hne
      · intro resp2 e h hb
        cases h
        refine ⟨"Error calling MLflow API: " ++ e, ?_⟩
        simp [predict_fraud, predict_fraud_result, hs, hb]
      · intro x h
        simp only [predict_fraud, predict_fraud_result, hs, ne_eq,
          not_true_eq_false, if_false] at h
        cases hb : resp.body with
        | error e => rw [hb] at h; simp at h
        | ok preds =>
          rw [hb] at h
          cases preds with
          | nil => simp at h
          | cons y rest =>
            simp only [Except.ok.injEq] at h
            exact ⟨resp, rest, rfl, hs, by rw [hb, h]⟩
    · refine ⟨rfl, rfl, rfl, ?_, ?_, ?_, ?_⟩
      · intro cause h; cases h
      · intro resp2 h hne; cases h
        simp [predict_fraud, predict_fraud_result, hs]
      · intro resp2 e h hb
        cases h
        refine ⟨"Error calling MLflow API: MLflow API error: "
          ++ toString resp.status ++ " " ++ resp.text, ?_⟩
        simp [predict_fraud, predict_fraud_result, hs]
      · intro x h
        simp [predict_fraud, predict_fraud_result, hs] at h

/-- Whether an output line is a JSON object line (as opposed to a plain
diagnostic line). -/
def isJsonLine : OutLine → Bool
  | OutLine.jsonSuccess _ _ => true
  | OutLine.jsonError _ _ => true
  | OutLine.diag _ => false

/-- The output contract `mainRun` actually satisfies: exactly one JSON line
across the two channels; on exit 0 it is a success object and the sole stdout
line with stderr empty; on failure the exit code is 1, stdout is empty, and
stderr ends in the error JSON object (with `fraud_bool` 0), preceded only by
plain non-JSON diagnostic lines. -/
def outputContract (res : ProgResult) : Bool :=
  ((res.stdout ++ res.stderr).countP isJsonLine == 1)
    && (if res.exitCode = 0 then
          res.stderr.isEmpty
            && (match res.stdout with
                | [OutLine.jsonSuccess _ _] => true
                | _ => false)
        else
          (res.exitCode == 1)
            && res.stdout.isEmpty
            && (match res.stderr.getLast? with
                | some (OutLine.jsonError _ fb) => fb == 0
                | _ => false)
            && res.stderr.dropLast.all (fun l => !(isJsonLine l)))

/-- C7 counterexample: with the artifact absent and a well-formed record, the
failure channel carries three lines (two plain diagnostics and the JSON error
object), so the invocation does not emit exactly one output line. -/
theorem single_output_line_cex :
    (mainRun envAbsent).stderr
        = [OutLine.diag ("Error: Preprocessor not found at "
            ++ PREPROCESSOR_PATH),
          OutLine.diag "Run: python3 fit_preprocessor.py first",
          OutLine.jsonError
            "Preprocessor not loaded. Run fit_preprocessor.py first." 0]
      ∧ (mainRun envAbsent).stdout.length + (mainRun envAbsent).stderr.length ≠ 1 := by
  decide

/-- C7 amended: every invocation emits exactly one JSON line on exactly one
of the two channels with the corresponding exit status — the success object
on stdout with exit 0, or the error object (with `fraud_bool` 0) as the last
stderr line with exit 1 — but the JSON error line may be preceded by plain
diagnostic lines on the failure channel when the preprocessor artifact is
missing. -/
theorem output_contract_holds (env : Env) :
    outputContract (mainRun env) = true := by
  obtain ⟨input, disk, service⟩ := env
  cases input with
  | error e => rfl
  | ok r =>
    cases disk with
    | none => rfl
    | some p =>
      cases hpd : preprocess_data p r with
      | error e =>
        simp only [mainRun, preprocess_data_run, load_preprocessor, hpd]
        rfl
      | ok features =>
        simp only [mainRun, preprocess_data_run, load_preprocessor, hpd,
          predict_fraud]
        cases hres : predict_fraud_result service with
        | error e => rfl
        | ok x => rfl

/-- The scoring service answering with HTTP status 500 and body `boom`. -/
def svc500 : ServiceBehavior :=
  ServiceBehavior.respond { status := 500, text := "boom", body := Except.ok [] }

/-- C6 witness: a 500 response makes `predict_fraud` fail with the status and
body in the error, after issuing exactly the one request. -/
theorem predict_fraud_contract_witness :
    (predict_fraud svc500 [1]).1
        = Except.error ("Error calling MLflow API: MLflow API error: "
            ++ toString (500 : ℕ) ++ " " ++ "boom")
      ∧ (predict_fraud svc500 [1]).2 = [predict_request [1]]
      ∧ (predict_request [1]).timeout = 10 :=
  ⟨(predict_fraud_contract svc500 [1]).2.2.2.2.1
      { status := 500, text := "boom", body := Except.ok [] } rfl (by decide),
    (predict_fraud_contract svc500 [1]).1,
    (predict_fraud_contract svc500 [1]).2.1⟩

/-- The scoring service answering status 200 with predictions `[2]` — an
integer label outside `{0, 1}`. -/
def resp200 : HttpResponse := { status := 200, text := "ok", body := Except.ok [2] }

/-- An invocation whose record transforms fine (artifact `pW` present) and
whose scoring service returns the label 2. -/
def envC8 : Env :=
  { input := Except.ok emptyRec
    disk := some pW
    service := ServiceBehavior.respond resp200 }

theorem mainRun_envC8_eval :
    mainRun envC8 =
      { stdout := [OutLine.jsonSuccess 2 30]
        stderr := []
        exitCode := 0
        requests := [predict_request vW] } := by
  simp [mainRun, envC8, preprocess_data_run, load_preprocessor,
    pW_emptyRec_eval, predict_fraud, predict_fraud_result, resp200, vW]

/-- C8 counterexample: the scoring service returns the integer 2 in its
predictions array and the program writes `fraud_bool = 2` in its success
output — a label outside `{0, 1}`. -/
theorem label_in_01_cex :
    (mainRun envC8).stdout = [OutLine.jsonSuccess 2 30]
      ∧ (mainRun envC8).exitCode = 0
      ∧ ¬((2 : Int) = 0 ∨ (2 : Int) = 1) := by
  rw [mainRun_envC8_eval]
  exact ⟨rfl, rfl, by decide⟩

/-- C8 amended: the label written as `fraud_bool` on the success path is
exactly the first element of the scoring service's predictions array, cast to
an integer and passed through unchanged — it lies in `{0, 1}` only when the
service returned such a value. -/
theorem label_passthrough (env : Env) (resp : HttpResponse) (x : Int)
    (rest : List Int) (hs : env.service = ServiceBehavior.respond resp)
    (h200 : resp.status = 200) (hb : resp.body = Except.ok (x :: rest))
    (h0 : (mainRun env).exitCode = 0) :
    ∃ n, (mainRun env).stdout = [OutLine.jsonSuccess x n] := by
  obtain ⟨input, disk, service⟩ := env
  replace hs : service = ServiceBehavior.respond resp := hs
  subst hs
  cases input with
  | error e => simp [mainRun] at h0
  | ok r =>
    cases disk with
    | none => simp [mainRun, preprocess_data_run, load_preprocessor] at h0
    | some p =>
      cases hpd : preprocess_data p r with
      | error e =>
        simp [mainRun, preprocess_data_run, load_preprocessor, hpd] at h0
      | ok features =>
        have hres : predict_fraud_result (ServiceBehavior.respond resp)
            = Except.ok x := by
          simp [predict_fraud_result, h200, hb]
        simp only [mainRun, preprocess_data_run, load_preprocessor, hpd,
          predict_fraud, hres]
        exact ⟨features.length, rfl⟩

/-- C8 amended witness: instantiated at `envC8`, where the service returned
2 and the output carries label 2. -/
theorem label_passthrough_witness :
    (mainRun envC8).exitCode = 0
      ∧ ∃ n, (mainRun envC8).stdout = [OutLine.jsonSuccess 2 n] := by
  have he : (mainRun envC8).exitCode = 0 := by rw [mainRun_envC8_eval]
  exact ⟨he, label_passthrough envC8 resp200 2 [] rfl rfl rfl he⟩
